import Mathlib

/-!
Verification development for a tree-walking Lox interpreter written in Rust
(scanner → parser → resolver → evaluator).  The definitions below are a
shallow embedding of the Rust source: each Lean definition mirrors one Rust
function, keeping its name (snake_case) and its control flow.  The `f64`
number payload is modelled by `Int`; none of the properties settled here
depend on floating-point rounding.  Shared mutable environments
(`Rc<RefCell<Environment>>`) are modelled by a store of frames addressed by
index, with `Rc::new(RefCell::new(self.clone()))` becoming allocation of a
fresh frame holding a copy of the cloned frame's bindings.  Recursion that
is not structural in Rust (environment-chain walks, the evaluator, the
recursive-descent parser) takes a fuel argument and returns `none` when the
fuel runs out.
-/

namespace Lox

/-- Mirrors `TokenType` from `src/token.rs` (closed enum of token kinds). -/
inductive TokenType where
  | LEFT_PAREN | RIGHT_PAREN | LEFT_BRACE | RIGHT_BRACE | COMMA | DOT
  | MINUS | PLUS | SEMICOLON | SLASH | STAR
  | BANG | BANG_EQUAL | EQUAL | EQUAL_EQUAL
  | GREATER | GREATER_EQUAL | LESS | LESS_EQUAL
  | IDENTIFIER | STRING | NUMBER
  | AND | CLASS | ELSE | FALSE | FUN | FOR | IF | NIL | OR
  | PRINT | RETURN | SUPER | THIS | TRUE | VAR | WHILE
  | EOF
  deriving DecidableEq, Repr

/-- Tag selecting one of the two registered built-ins
(`src/interpreter/builtins.rs`); the Rust code stores a function pointer. -/
inductive BuiltinTag where
  | clock
  | sum
  deriving DecidableEq, Repr

mutual

/-- Mirrors `Value` from `src/value/mod.rs`; `Number(f64)` is modelled with
an `Int` payload. -/
inductive Value where
  | str (s : String)
  | number (n : Int)
  | boolean (b : Bool)
  | nil
  | callable (c : Callable)

/-- Mirrors `Callable` from `src/value/callable.rs`.  That file's `Function`
variant holds only `declaration`; the interpreter arm in `src/tree/stmt.rs`
line 195 additionally constructs a `closure` field (the current environment
at declaration time), so the variant here carries both.  `Callable::call`
(`src/value/callable.rs` lines 37-64) never reads the closure. -/
inductive Callable where
  | builtIn (name : Token) (arity : Nat) (tag : BuiltinTag)
  | function (declaration : Stmt) (closure : Nat)

/-- Mirrors `Token` from `src/token.rs`. -/
inductive Token where
  | mk (token_type : TokenType) (lexeme : String) (literal : Option Value) (line : Nat)

/-- Mirrors `Expr` from `src/tree/expr.rs` (`Variable` is rendered `var`
because `variable` is reserved in Lean). -/
inductive Expr where
  | binary (left : Expr) (operator : Token) (right : Expr)
  | grouping (inner : Expr)
  | literal (value : Option Value)
  | unary (operator : Token) (right : Expr)
  | var (name : Token)
  | assign (name : Token) (value : Expr)
  | logical (left : Expr) (operator : Token) (right : Expr)
  | call (callee : Expr) (paren : Token) (arguments : List Expr)

/-- Mirrors `Stmt` from `src/tree/stmt.rs` (`Var`/`If`/`While`/`Return` are
rendered `varDecl`/`ifS`/`whileS`/`ret` to avoid Lean keywords). -/
inductive Stmt where
  | print (e : Expr)
  | expression (e : Expr)
  | varDecl (name : Token) (initializer : Option Expr)
  | block (stmts : List Stmt)
  | ifS (condition : Expr) (then_branch : Stmt) (else_branch : Option Stmt)
  | whileS (condition : Expr) (body : Stmt)
  | function (name : Token) (params : List Token) (body : List Stmt)
  | ret (keyword : Token) (value : Option Expr)

end

namespace Token

/-- Field accessor mirroring `token.token_type`. -/
def token_type : Token → TokenType
  | .mk t _ _ _ => t

/-- Field accessor mirroring `token.lexeme`. -/
def lexeme : Token → String
  | .mk _ l _ _ => l

/-- Field accessor mirroring `token.literal`. -/
def literal : Token → Option Value
  | .mk _ _ v _ => v

/-- Field accessor mirroring `token.line`. -/
def line : Token → Nat
  | .mk _ _ _ n => n

/-- Mirrors `Token::eof` from `src/token.rs`. -/
def eof (line : Nat) : Token := .mk .EOF "" none line

end Token

/-- Mirrors `value::Error` from `src/value/error.rs`, with the fields the
construction sites in `src/value/mod.rs` and the match arms in
`src/interpreter/mod.rs` actually use (a token and a message). -/
inductive VError where
  | invalidOperation (token : Token) (message : String)
  | invalidType (token : Token) (message : String)
  | zeroDivision (token : Token) (message : String)
  | mustBeNumber (token : Token) (message : String)
  | mustBeNumberOrString (token : Token) (message : String)
  | notCallable (token : Token)
  | invalidCountOfArguments (token : Token) (count : Nat) (expected : Nat)

/-- Mirrors `interpreter::environment::Error`
(`src/interpreter/environment/error.rs`). -/
inductive EnvError where
  | undefinedVariable (name : Token)
  | ancestorNotFound (distance : Nat) (name : Token)

/-- Mirrors `interpreter::Error`: the `ValueError` and `EnvironmentError`
variants from `src/interpreter/error.rs` plus the `Return(Value)` variant
that `src/tree/stmt.rs` raises and `src/interpreter/mod.rs` matches. -/
inductive IError where
  | valueError (e : VError)
  | environmentError (e : EnvError)
  | ret (v : Value)

namespace Value

/-- Mirrors `Value::is_truthy` from `src/value/mod.rs`. -/
def is_truthy : Value → Bool
  | .nil => false
  | .boolean b => b
  | _ => true

/-- Mirrors `Value::is_equal` from `src/value/mod.rs`; note the wildcard arm
makes two callables compare unequal. -/
def is_equal : Value → Value → Bool
  | .str s1, .str s2 => s1 == s2
  | .number n1, .number n2 => n1 == n2
  | .boolean b1, .boolean b2 => b1 == b2
  | .nil, .nil => true
  | _, _ => false

/-- Mirrors `Value::is_callable` from `src/value/mod.rs`. -/
def is_callable : Value → Bool
  | .callable _ => true
  | _ => false

/-- Mirrors `Value::calculate` from `src/value/mod.rs`: dispatch on the
operator token, with the same pairing rules and error messages. -/
def calculate (self : Value) (other : Option Value) (token : Token) :
    Except VError Value :=
  match token.token_type with
  | .MINUS =>
    match self, other with
    | .number a, some (.number b) => .ok (.number (a - b))
    | .number a, none => .ok (.number (-a))
    | _, none => .error (.mustBeNumber token "Operand must be a number.")
    | _, _ => .error (.invalidType token "Operation must be done with numbers.")
  | .PLUS =>
    match self, other with
    | .number a, some (.number b) => .ok (.number (a + b))
    | .str a, some (.str b) => .ok (.str (a ++ b))
    | _, _ =>
      .error (.invalidType token "Operation must be done with numbers or strings.")
  | .SLASH =>
    match self, other with
    | .number a, some (.number b) =>
      if b == 0 then .error (.zeroDivision token "Cannot divide by zero.")
      else .ok (.number (a / b))
    | _, _ => .error (.invalidType token "Operation must be done with numbers.")
  | .STAR =>
    match self, other with
    | .number a, some (.number b) => .ok (.number (a * b))
    | _, _ => .error (.invalidType token "Operation must be done with numbers.")
  | .BANG =>
    match other with
    | none => .ok (.boolean (!self.is_truthy))
    | some _ =>
      .error (.invalidOperation token "Operation must be done with one operand.")
  | .EQUAL_EQUAL =>
    match other with
    | some right => .ok (.boolean (self.is_equal right))
    | none =>
      .error (.invalidOperation token "Operation must be done with two operands.")
  | .BANG_EQUAL =>
    match other with
    | some right => .ok (.boolean (!self.is_equal right))
    | none =>
      .error (.invalidOperation token "Operation must be done with two operands.")
  | .GREATER =>
    match self, other with
    | .number a, some (.number b) => .ok (.boolean (decide (a > b)))
    | .str a, some (.str b) => .ok (.boolean (decide (a > b)))
    | _, _ =>
      .error (.invalidOperation token "Operation must be done with two operands.")
  | .GREATER_EQUAL =>
    match self, other with
    | .number a, some (.number b) => .ok (.boolean (decide (a ≥ b)))
    | .str a, some (.str b) => .ok (.boolean (decide (a ≥ b)))
    | _, _ =>
      .error (.invalidOperation token "Operation must be done with two operands.")
  | .LESS =>
    match self, other with
    | .number a, some (.number b) => .ok (.boolean (decide (a < b)))
    | .str a, some (.str b) => .ok (.boolean (decide (a < b)))
    | _, _ =>
      .error (.invalidOperation token "Operation must be done with two operands.")
  | .LESS_EQUAL =>
    match self, other with
    | .number a, some (.number b) => .ok (.boolean (decide (a ≤ b)))
    | .str a, some (.str b) => .ok (.boolean (decide (a ≤ b)))
    | _, _ =>
      .error (.invalidOperation token "Operation must be done with two operands.")
  | _ => .error (.invalidOperation token "Invalid operation.")

/-- Mirrors `Value::stringify` from `src/value/mod.rs`; with the `Int` model
of numbers the trailing-`.0` strip of the Rust code never has anything to
strip, so numbers render as plain decimals, which is the post-strip result. -/
def stringify : Value → String
  | .str s => s
  | .number n => toString n
  | .boolean b => toString b
  | .nil => "nil"
  | .callable (.builtIn name _ _) => "<native fn " ++ name.lexeme ++ ">"
  | .callable (.function _ _) => "<fn>"

end Value

namespace Callable

/-- Mirrors `Callable::arity` from `src/value/callable.rs` (the `panic!` arm
for a non-function declaration is modelled as arity 0; it is unreachable for
values built by the interpreter). -/
def arity : Callable → Nat
  | .function (.function _ params _) _ => params.length
  | .function _ _ => 0
  | .builtIn _ a _ => a

end Callable

/-- Mirrors `Value::arity` from `src/value/mod.rs`. -/
def Value.arity : Value → Nat
  | .callable c => c.arity
  | _ => 0

/-! ## Environments

`Environment` (`src/interpreter/environment/mod.rs`) is a `HashMap<String,
Option<Value>>` plus an optional `Rc<RefCell<Environment>>` enclosing
pointer.  The heap of reference-counted cells is modelled by a `Store` whose
`frames` list is indexed by address; `Rc` sharing is address sharing, and
`Rc::new(RefCell::new(self.clone()))` is allocation of a fresh address
holding a copy of a frame.  The hash map is modelled by an association list
with overwrite-on-insert semantics.  `Store.output` collects what `println!`
writes (used by `print`). -/

/-- One environment frame: the `values` map and the `enclosing` address. -/
structure Frame where
  values : List (String × Option Value)
  enclosing : Option Nat

/-- The heap of frames plus collected stdout lines. -/
structure Store where
  frames : List Frame
  output : List String

/-- `HashMap::get` on the model of `values`. -/
def lookupVal : List (String × Option Value) → String → Option (Option Value)
  | [], _ => none
  | (k, v) :: rest, name => if k == name then some v else lookupVal rest name

/-- `HashMap::insert` on the model of `values`: overwrite the existing entry
or append a new one. -/
def insertVal : List (String × Option Value) → String → Option Value →
    List (String × Option Value)
  | [], name, v => [(name, v)]
  | (k, w) :: rest, name, v =>
    if k == name then (k, v) :: rest else (k, w) :: insertVal rest name v

/-- Lookup in the interpreter's `locals: HashMap<String, usize>`. -/
def lookupNat : List (String × Nat) → String → Option Nat
  | [], _ => none
  | (k, v) :: rest, name => if k == name then some v else lookupNat rest name

/-- Insert into the interpreter's `locals` map (overwrite or append). -/
def insertNat : List (String × Nat) → String → Nat → List (String × Nat)
  | [], name, v => [(name, v)]
  | (k, w) :: rest, name, v =>
    if k == name then (k, v) :: rest else (k, w) :: insertNat rest name v

namespace Store

/-- Dereference an address (Rust's `Rc` dereference; addresses produced by
the interpreter are always in range, the default is never reached there). -/
def frameAt (st : Store) (a : Nat) : Frame :=
  st.frames.getD a ⟨[], none⟩

/-- Allocate a fresh cell holding `f`; returns the new store and address. -/
def alloc (st : Store) (f : Frame) : Store × Nat :=
  ({ st with frames := st.frames ++ [f] }, st.frames.length)

/-- Replace the frame at address `a`. -/
def setFrame (st : Store) (a : Nat) (f : Frame) : Store :=
  { st with frames := st.frames.set a f }

end Store

namespace Environment

/-- Mirrors `Environment::define`: insert or overwrite in the frame at `a`. -/
def define (st : Store) (a : Nat) (name : String) (value : Option Value) :
    Store :=
  let f := st.frameAt a
  st.setFrame a { f with values := insertVal f.values name value }

/-- Mirrors `Environment::get`: look in the frame at `a`; a declared but
uninitialized binding yields `Nil`; otherwise recurse into the enclosing
frame; error with `UndefinedVariable` at the end of the chain.  The fuel
bounds the chain walk; `none` means it ran out. -/
def get (st : Store) : Nat → Nat → Token → Option (Except EnvError Value)
  | 0, _, _ => none
  | fuel + 1, a, name =>
    match lookupVal (st.frameAt a).values name.lexeme with
    | some (some v) => some (.ok v)
    | some none => some (.ok .nil)
    | none =>
      match (st.frameAt a).enclosing with
      | some e => get st fuel e name
      | none => some (.error (.undefinedVariable name))

/-- Mirrors `Environment::assign`: overwrite in the first frame of the chain
that contains `name`; error with `UndefinedVariable` if none does. -/
def assign (st : Store) : Nat → Nat → Token → Option Value →
    Option (Except EnvError Unit × Store)
  | 0, _, _, _ => none
  | fuel + 1, a, name, value =>
    match lookupVal (st.frameAt a).values name.lexeme with
    | some _ =>
      some (.ok (), Environment.define st a name.lexeme value)
    | none =>
      match (st.frameAt a).enclosing with
      | some e => assign st fuel e name value
      | none => some (.error (.undefinedVariable name), st)

/-- The loop body of `Environment::ancestor`: hop to the enclosing frame
`distance` times, staying put whenever there is no enclosing frame (the
Rust `if let` has no else branch). -/
def ancestorWalk (st : Store) : Nat → Nat → Nat
  | a, 0 => a
  | a, d + 1 =>
    ancestorWalk st
      (match (st.frameAt a).enclosing with
       | some e => e
       | none => a) d

/-- Mirrors `Environment::ancestor`
(`src/interpreter/environment/mod.rs` lines 41-51): first allocate
`Rc::new(RefCell::new(self.clone()))` — a fresh cell holding a copy of the
frame at `a` — then walk `distance` saturating hops from it.  The Rust
function wraps the result in `Some` unconditionally, so it never fails. -/
def ancestor (st : Store) (a distance : Nat) : Store × Nat :=
  let (st', start) := st.alloc (st.frameAt a)
  (st', ancestorWalk st' start distance)

/-- Mirrors `Environment::get_at`: `ancestor`, then `get` from the frame it
reached (its `None` arm, which would raise `AncestorNotFound`, is dead
because `ancestor` always returns `Some`). -/
def get_at (st : Store) (fuel a distance : Nat) (name : Token) :
    Option (Except EnvError Value) :=
  let (st', b) := ancestor st a distance
  get st' fuel b name

/-- Mirrors `Environment::assign_at`: `ancestor`, then `assign` starting at
the frame it reached, propagating that error (`?`) and returning `Ok(())`. -/
def assign_at (st : Store) (fuel a distance : Nat) (name : Token)
    (value : Option Value) : Option (Except EnvError Unit × Store) :=
  let (st', b) := ancestor st a distance
  assign st' fuel b name value

end Environment

/-! ## Interpreter

`Interpreter` (`src/interpreter/mod.rs`) owns `globals` and `environment`
(both `Rc<RefCell<Environment>>`, modelled as store addresses) and the
resolution table `locals: HashMap<String, usize>` — note the table is keyed
by identifier text.  Statement execution goes through
`stmt.accept(&W(self.clone()).into())`: the interpreter struct is cloned for
each nested execution, so reassignments of the clone's `environment` field
never leak back to the caller, while the store (the `Rc` heap) is shared;
the model therefore passes `Interp` by value and threads the `Store`. -/

/-- The interpreter state: current environment address, globals address and
the resolution table (`locals`). -/
structure Interp where
  environment : Nat
  globals : Nat
  locals : List (String × Nat)

/-- Result type of evaluation: `none` when the fuel ran out, otherwise the
`Result` returned by the Rust code together with the store. -/
abbrev EvalM (α : Type) := Option (Except IError α × Store)

/-- Lift a `value::Error` result into an interpreter result (the `?` with
`From` conversion in the Rust code). -/
def ofV : Except VError Value → Except IError Value
  | .ok v => .ok v
  | .error e => .error (.valueError e)

/-- Mirrors `Interpreter::look_up_variable`: if the name is in `locals`, use
`get_at` with the recorded distance against the current environment,
otherwise `globals.get`. -/
def look_up_variable (st : Store) (fuel : Nat) (I : Interp) (name : Token) :
    Option (Except EnvError Value) :=
  match lookupNat I.locals name.lexeme with
  | some distance => Environment.get_at st fuel I.environment distance name
  | none => Environment.get st fuel I.globals name

/-- Mirrors `Interpreter::resolve`: insert `expr.name() → depth` into
`locals` when the expression has a name. -/
def Expr.name : Expr → Option String
  | .var token => some token.lexeme
  | .assign name _ => some name.lexeme
  | .binary left _ _ => left.name
  | .call callee _ _ => callee.name
  | _ => none

/-- Mirrors `Interpreter::resolve` (`src/interpreter/mod.rs` lines 81-85). -/
def Interp.resolve (locals : List (String × Nat)) (expr : Expr)
    (depth : Nat) : List (String × Nat) :=
  match expr.name with
  | some name => insertNat locals name depth
  | none => locals

/-- The parameter-binding loop of `Callable::call`: `for (i, arg) in
args.iter().enumerate() { env.define(params[i].lexeme, Some(arg)) }`. -/
def bindParams : List Token → List Value →
    List (String × Option Value) → List (String × Option Value)
  | _, [], values => values
  | [], _ :: _, values => values
  | p :: ps, a :: as_, values => bindParams ps as_ (insertVal values p.lexeme (some a))

/-- The token `Token::new(PLUS, "+", None, 1)` built by the `sum` builtin. -/
def sumPlusToken : Token := .mk .PLUS "+" none 1

mutual

/-- Mirrors the interpreter `Acceptor` impl for `Expr`
(`src/tree/expr.rs` lines 144-245). -/
def evalExpr (fuel : Nat) (st : Store) (I : Interp) (e : Expr) : EvalM Value :=
  match fuel with
  | 0 => none
  | fuel + 1 =>
    match e with
    | .binary left operator right =>
      match evalExpr fuel st I left with
      | none => none
      | some (.error er, st₁) => some (.error er, st₁)
      | some (.ok lv, st₁) =>
        match evalExpr fuel st₁ I right with
        | none => none
        | some (.error er, st₂) => some (.error er, st₂)
        | some (.ok rv, st₂) => some (ofV (lv.calculate (some rv) operator), st₂)
    | .grouping inner => evalExpr fuel st I inner
    | .literal v =>
      match v with
      | some v => some (.ok v, st)
      | none => some (.ok .nil, st)
    | .unary operator right =>
      match evalExpr fuel st I right with
      | none => none
      | some (.error er, st₁) => some (.error er, st₁)
      | some (.ok v, st₁) => some (ofV (v.calculate none operator), st₁)
    | .var name =>
      match look_up_variable st fuel I name with
      | none => none
      | some (.ok v) => some (.ok v, st)
      | some (.error er) => some (.error (.environmentError er), st)
    | .assign name value =>
      match evalExpr fuel st I value with
      | none => none
      | some (.error er, st₁) => some (.error er, st₁)
      | some (.ok v, st₁) =>
        match lookupNat I.locals name.lexeme with
        | some distance =>
          -- the Result of `assign_at` is dropped (`src/tree/expr.rs` 181-185)
          match Environment.assign_at st₁ fuel I.environment distance name (some v) with
          | none => none
          | some (_, st₂) => some (.ok v, st₂)
        | none =>
          -- the Result of `globals.assign` is dropped (`src/tree/expr.rs` 187-190)
          match Environment.assign st₁ fuel I.globals name (some v) with
          | none => none
          | some (_, st₂) => some (.ok v, st₂)
    | .logical left operator right =>
      match evalExpr fuel st I left with
      | none => none
      | some (.error er, st₁) => some (.error er, st₁)
      | some (.ok lv, st₁) =>
        if operator.token_type = .OR then
          if lv.is_truthy then some (.ok lv, st₁)
          else evalExpr fuel st₁ I right
        else
          if !lv.is_truthy then some (.ok lv, st₁)
          else evalExpr fuel st₁ I right
    | .call callee paren arguments =>
      match evalExpr fuel st I callee with
      | none => none
      | some (.error er, st₁) => some (.error er, st₁)
      | some (.ok cv, st₁) =>
        match evalArgs fuel st₁ I arguments with
        | none => none
        | some (.error er, st₂) => some (.error er, st₂)
        | some (.ok args, st₂) =>
          if !cv.is_callable then
            some (.error (.valueError (.notCallable paren)), st₂)
          else if args.length ≠ cv.arity then
            some (.error (.valueError
              (.invalidCountOfArguments paren args.length cv.arity)), st₂)
          else
            callValue fuel st₂ I cv paren args

/-- The argument-collection loop of the `Call` arm (left-to-right, stopping
at the first error). -/
def evalArgs (fuel : Nat) (st : Store) (I : Interp) (es : List Expr) :
    EvalM (List Value) :=
  match fuel with
  | 0 => none
  | fuel + 1 =>
    match es with
    | [] => some (.ok [], st)
    | e :: rest =>
      match evalExpr fuel st I e with
      | none => none
      | some (.error er, st₁) => some (.error er, st₁)
      | some (.ok v, st₁) =>
        match evalArgs fuel st₁ I rest with
        | none => none
        | some (.error er, st₂) => some (.error er, st₂)
        | some (.ok vs, st₂) => some (.ok (v :: vs), st₂)

/-- Mirrors `Value::call` (`src/value/mod.rs` lines 33-47). -/
def callValue (fuel : Nat) (st : Store) (I : Interp) (v : Value)
    (paren : Token) (args : List Value) : EvalM Value :=
  match fuel with
  | 0 => none
  | fuel + 1 =>
    match v with
    | .callable c => callCallable fuel st I c args
    | _ => some (.error (.valueError (.notCallable paren)), st)

/-- Mirrors `Callable::call` (`src/value/callable.rs` lines 37-64).  For a
`Function` it creates `Environment::new(Some(interpreter.globals.clone()))`
— the parent of the call frame is the GLOBALS, the closure field is unread —
binds each parameter to the corresponding argument, executes the body and
DISCARDS the result of `execute_block` (line 55 drops the `Result`), always
returning `Ok(Value::Nil)`.  The `panic!` arm for a non-function declaration
is modelled as `none`. -/
def callCallable (fuel : Nat) (st : Store) (I : Interp) (c : Callable)
    (args : List Value) : EvalM Value :=
  match fuel with
  | 0 => none
  | fuel + 1 =>
    match c with
    | .function declaration _closure =>
      match declaration with
      | .function _name params body =>
        let (st₁, envA) := st.alloc ⟨bindParams params args [], some I.globals⟩
        match execBlock fuel st₁ { I with environment := envA } body with
        | none => none
        | some (_, st₂) => some (.ok .nil, st₂)
      | _ => none
    | .builtIn _ _ tag =>
      match tag with
      | .sum =>
        -- `builtins::sum` also prints a debug line with `println!`; that
        -- line is not modelled (no claim concerns `sum`)
        match args with
        | a :: b :: _ => some (ofV (a.calculate (some b) sumPlusToken), st)
        | _ => none
      | .clock =>
        -- `builtins::clock` reads the system time (I/O); the constant
        -- stands in for the unobservable reading (no claim concerns it)
        some (.ok (.number 0), st)

/-- Mirrors `Interpreter::execute_block` (`src/interpreter/mod.rs` lines
104-122) running the statements of a block against the interpreter whose
`environment` was swapped by the caller; the swap-back is implicit because
`Interp` is passed by value (the Rust clone-per-statement has the same
effect). -/
def execBlock (fuel : Nat) (st : Store) (I : Interp) (stmts : List Stmt) :
    EvalM Unit :=
  match fuel with
  | 0 => none
  | fuel + 1 =>
    match stmts with
    | [] => some (.ok (), st)
    | s :: rest =>
      match execStmt fuel st I s with
      | none => none
      | some (.error er, st₁) => some (.error er, st₁)
      | some (.ok _, st₁) => execBlock fuel st₁ I rest

/-- Mirrors the interpreter `Acceptor` impl for `Stmt`
(`src/tree/stmt.rs` lines 130-216). -/
def execStmt (fuel : Nat) (st : Store) (I : Interp) (s : Stmt) : EvalM Unit :=
  match fuel with
  | 0 => none
  | fuel + 1 =>
    match s with
    | .expression e =>
      match evalExpr fuel st I e with
      | none => none
      | some (.error er, st₁) => some (.error er, st₁)
      | some (.ok _, st₁) => some (.ok (), st₁)
    | .print e =>
      match evalExpr fuel st I e with
      | none => none
      | some (.error er, st₁) => some (.error er, st₁)
      | some (.ok v, st₁) =>
        some (.ok (), { st₁ with output := st₁.output ++ [v.stringify] })
    | .varDecl name initializer =>
      match initializer with
      | none =>
        some (.ok (), Environment.define st I.environment name.lexeme none)
      | some init =>
        match evalExpr fuel st I init with
        | none => none
        | some (.error er, st₁) => some (.error er, st₁)
        | some (.ok v, st₁) =>
          some (.ok (), Environment.define st₁ I.environment name.lexeme (some v))
    | .block stmts =>
      let (st₁, envA) := st.alloc ⟨[], some I.environment⟩
      execBlock fuel st₁ { I with environment := envA } stmts
    | .ifS condition then_branch else_branch =>
      match evalExpr fuel st I condition with
      | none => none
      | some (.error er, st₁) => some (.error er, st₁)
      | some (.ok v, st₁) =>
        if v.is_truthy then execStmt fuel st₁ I then_branch
        else
          match else_branch with
          | some els => execStmt fuel st₁ I els
          | none => some (.ok (), st₁)
    | .whileS condition body =>
      match evalExpr fuel st I condition with
      | none => none
      | some (.error er, st₁) => some (.error er, st₁)
      | some (.ok v, st₁) =>
        if v.is_truthy then
          match execStmt fuel st₁ I body with
          | none => none
          | some (.error er, st₂) => some (.error er, st₂)
          | some (.ok _, st₂) => execStmt fuel st₂ I (.whileS condition body)
        else some (.ok (), st₁)
    | .function name params body =>
      let value : Value :=
        .callable (.function (.function name params body) I.environment)
      some (.ok (), Environment.define st I.environment name.lexeme (some value))
    | .ret _keyword value =>
      match value with
      | none => some (.error (.ret .nil), st)
      | some e =>
        match evalExpr fuel st I e with
        | none => none
        | some (.error er, st₁) => some (.error er, st₁)
        | some (.ok v, st₁) => some (.error (.ret v), st₁)

end

/-! ## Resolver

`Resolver` (`src/resolver/mod.rs`) keeps a stack of scopes (`Vec<HashMap
<String, bool>>`, outermost first, scanned via `.rev()`); the model stores
the stack innermost-first, so pushing a scope is `::` and the hop count of
a scan from the innermost scope is the plain list index.  The resolver
writes into the interpreter's `locals` table through
`Interpreter::resolve`. -/

/-- Mirrors `resolver::FunctionType`. -/
inductive FunctionType where
  | none
  | function
  deriving DecidableEq, Repr

/-- Mirrors `resolver::Error` (`src/resolver/error.rs`). -/
inductive RError where
  | localVarReadWhileInitialized (token : Token)
  | redefiningLocalVar (token : Token)
  | topLevelReturn (token : Token)

/-- One resolver scope: `HashMap<String, bool>` as an association list. -/
abbrev Scope := List (String × Bool)

/-- `HashMap::contains_key` on a scope. -/
def containsKey : Scope → String → Bool
  | [], _ => false
  | (k, _) :: rest, name => k == name || containsKey rest name

/-- `HashMap::get` on a scope. -/
def lookupBool : Scope → String → Option Bool
  | [], _ => none
  | (k, v) :: rest, name => if k == name then some v else lookupBool rest name

/-- `HashMap::insert` on a scope (overwrite or append). -/
def insertBool : Scope → String → Bool → Scope
  | [], name, v => [(name, v)]
  | (k, w) :: rest, name, v =>
    if k == name then (k, v) :: rest else (k, w) :: insertBool rest name v

/-- The resolver state together with the interpreter's `locals` table it
fills and the diagnostics `Resolver::error` prints. -/
structure RState where
  scopes : List Scope
  current_function : FunctionType
  had_error : Bool
  locals : List (String × Nat)
  errors : List RError

namespace Resolver

/-- Mirrors `Resolver::begin_scope`. -/
def begin_scope (R : RState) : RState :=
  { R with scopes := [] :: R.scopes }

/-- Mirrors `Resolver::end_scope`. -/
def end_scope (R : RState) : RState :=
  { R with scopes := R.scopes.tail }

/-- Mirrors `Resolver::declare`: error on redeclaration in the innermost
scope, otherwise insert `name → false`; a no-op at global scope. -/
def declare (R : RState) (name : Token) : Except RError RState :=
  match R.scopes with
  | [] => .ok R
  | scope :: rest =>
    if containsKey scope name.lexeme then .error (.redefiningLocalVar name)
    else .ok { R with scopes := insertBool scope name.lexeme false :: rest }

/-- Mirrors `Resolver::define`: insert `name → true` in the innermost scope
(no-op at global scope). -/
def define (R : RState) (name : Token) : RState :=
  match R.scopes with
  | [] => R
  | scope :: rest =>
    { R with scopes := insertBool scope name.lexeme true :: rest }

/-- The scan loop of `resolve_local`: `i` counts scopes from the innermost
(the Rust `.rev().enumerate()` index); on the first scope containing the
name it records `scopes.len() - 1 - i` via `Interpreter::resolve` and
stops. -/
def resolve_localAux (len : Nat) (locals : List (String × Nat)) (expr : Expr)
    (name : Token) : Nat → List Scope → List (String × Nat)
  | _, [] => locals
  | i, scope :: rest =>
    if containsKey scope name.lexeme then
      Interp.resolve locals expr (len - 1 - i)
    else resolve_localAux len locals expr name (i + 1) rest

/-- Mirrors `Resolver::resolve_local` (`src/resolver/mod.rs` lines
115-124). -/
def resolve_local (R : RState) (expr : Expr) (name : Token) : RState :=
  { R with
    locals := resolve_localAux R.scopes.length R.locals expr name 0 R.scopes }

end Resolver

mutual

/-- Mirrors the resolver `Acceptor` impl for `Expr`
(`src/tree/expr.rs` lines 73-142). -/
def resolveExpr (fuel : Nat) (R : RState) (e : Expr) :
    Option (Except RError Unit × RState) :=
  match fuel with
  | 0 => none
  | fuel + 1 =>
    match e with
    | .var token =>
      match R.scopes with
      | scope :: _ =>
        if lookupBool scope token.lexeme = some false then
          some (.error (.localVarReadWhileInitialized token), R)
        else some (.ok (), Resolver.resolve_local R (.var token) token)
      | [] => some (.ok (), Resolver.resolve_local R (.var token) token)
    | .assign name value =>
      match resolveExpr fuel R value with
      | none => none
      | some (.error er, R₁) => some (.error er, R₁)
      | some (.ok _, R₁) =>
        -- the source keys the table by the *value* sub-expression here
        some (.ok (), Resolver.resolve_local R₁ value name)
    | .binary left _ right =>
      match resolveExpr fuel R left with
      | none => none
      | some (.error er, R₁) => some (.error er, R₁)
      | some (.ok _, R₁) => resolveExpr fuel R₁ right
    | .grouping inner => resolveExpr fuel R inner
    | .literal _ => some (.ok (), R)
    | .unary _ right => resolveExpr fuel R right
    | .logical left _ right =>
      match resolveExpr fuel R left with
      | none => none
      | some (.error er, R₁) => some (.error er, R₁)
      | some (.ok _, R₁) => resolveExpr fuel R₁ right
    | .call callee _ arguments =>
      match resolveExpr fuel R callee with
      | none => none
      | some (.error er, R₁) => some (.error er, R₁)
      | some (.ok _, R₁) => resolveExprList fuel R₁ arguments

/-- The argument loop of the resolver's `Call` arm. -/
def resolveExprList (fuel : Nat) (R : RState) (es : List Expr) :
    Option (Except RError Unit × RState) :=
  match fuel with
  | 0 => none
  | fuel + 1 =>
    match es with
    | [] => some (.ok (), R)
    | e :: rest =>
      match resolveExpr fuel R e with
      | none => none
      | some (.error er, R₁) => some (.error er, R₁)
      | some (.ok _, R₁) => resolveExprList fuel R₁ rest

/-- The parameter loop of the resolver's `Function` arm
(`declare` + `define` each parameter). -/
def resolveParams (fuel : Nat) (R : RState) (params : List Token) :
    Option (Except RError Unit × RState) :=
  match fuel with
  | 0 => none
  | fuel + 1 =>
    match params with
    | [] => some (.ok (), R)
    | p :: rest =>
      match Resolver.declare R p with
      | .error er => some (.error er, R)
      | .ok R₁ => resolveParams fuel (Resolver.define R₁ p) rest

/-- Mirrors the resolver `Acceptor` impl for `Stmt`
(`src/tree/stmt.rs` lines 40-128). -/
def resolveStmt (fuel : Nat) (R : RState) (s : Stmt) :
    Option (Except RError Unit × RState) :=
  match fuel with
  | 0 => none
  | fuel + 1 =>
    match s with
    | .block stmts =>
      match resolve_block fuel (Resolver.begin_scope R) stmts with
      | none => none
      | some R₁ => some (.ok (), Resolver.end_scope R₁)
    | .varDecl name initializer =>
      match Resolver.declare R name with
      | .error er => some (.error er, R)
      | .ok R₁ =>
        match initializer with
        | none => some (.ok (), Resolver.define R₁ name)
        | some init =>
          match resolveExpr fuel R₁ init with
          | none => none
          | some (.error er, R₂) => some (.error er, R₂)
          | some (.ok _, R₂) => some (.ok (), Resolver.define R₂ name)
    | .function name params body =>
      match Resolver.declare R name with
      | .error er => some (.error er, R)
      | .ok R₁ =>
        let R₂ := Resolver.define R₁ name
        let enclosing_function := R₂.current_function
        let R₃ := Resolver.begin_scope
          { R₂ with current_function := FunctionType.function }
        match resolveParams fuel R₃ params with
        | none => none
        | some (.error er, R₄) => some (.error er, R₄)
        | some (.ok _, R₄) =>
          match resolve_block fuel R₄ body with
          | none => none
          | some R₅ =>
            some (.ok (), { Resolver.end_scope R₅ with
              current_function := enclosing_function })
    | .expression e =>
      match resolveExpr fuel R e with
      | none => none
      | some (.error er, R₁) => some (.error er, R₁)
      | some (.ok _, R₁) => some (.ok (), R₁)
    | .ifS condition then_branch else_branch =>
      match resolveExpr fuel R condition with
      | none => none
      | some (.error er, R₁) => some (.error er, R₁)
      | some (.ok _, R₁) =>
        match resolveStmt fuel R₁ then_branch with
        | none => none
        | some (.error er, R₂) => some (.error er, R₂)
        | some (.ok _, R₂) =>
          match else_branch with
          | none => some (.ok (), R₂)
          | some els => resolveStmt fuel R₂ els
    | .print e =>
      match resolveExpr fuel R e with
      | none => none
      | some (.error er, R₁) => some (.error er, R₁)
      | some (.ok _, R₁) => some (.ok (), R₁)
    | .ret keyword value =>
      if R.current_function = FunctionType.none then
        some (.error (.topLevelReturn keyword), R)
      else
        match value with
        | none => some (.ok (), R)
        | some v =>
          match resolveExpr fuel R v with
          | none => none
          | some (.error er, R₁) => some (.error er, R₁)
          | some (.ok _, R₁) => some (.ok (), R₁)
    | .whileS condition body =>
      match resolveExpr fuel R condition with
      | none => none
      | some (.error er, R₁) => some (.error er, R₁)
      | some (.ok _, R₁) => resolveStmt fuel R₁ body

/-- Mirrors `Resolver::resolve_block`: each statement's error is caught,
sets `had_error`, is reported, and resolution continues; the function
itself always returns `Ok`. -/
def resolve_block (fuel : Nat) (R : RState) (stmts : List Stmt) :
    Option RState :=
  match fuel with
  | 0 => none
  | fuel + 1 =>
    match stmts with
    | [] => some R
    | s :: rest =>
      match resolveStmt fuel R s with
      | none => none
      | some (.error er, R₁) =>
        resolve_block fuel
          { R₁ with had_error := true, errors := R₁.errors ++ [er] } rest
      | some (.ok _, R₁) => resolve_block fuel R₁ rest

end

/-! ## Driver pipeline -/

/-- The token `Token::new(IDENTIFIER, name, None, 0)` used when registering
a built-in (`Interpreter::define_native`). -/
def nativeToken (name : String) : Token := .mk .IDENTIFIER name none 0

/-- The globals frame after `Interpreter::define_natives` registered `clock`
and `sum`. -/
def initialGlobals : Frame :=
  ⟨[("clock", some (.callable (.builtIn (nativeToken "clock") 0 .clock))),
    ("sum", some (.callable (.builtIn (nativeToken "sum") 2 .sum)))], none⟩

/-- The store holding only the globals frame (address 0). -/
def initialStore : Store := ⟨[initialGlobals], []⟩

/-- `Interpreter::default()`: `environment` and `globals` are the same
frame, `locals` empty. -/
def initialInterp : Interp := ⟨0, 0, []⟩

/-- The initial resolver state built by `Resolver::new`. -/
def initialRState : RState := ⟨[], FunctionType.none, false, [], []⟩

/-- Mirrors `Interpreter::interpret_stmt`: run statements in order against
the current (initially global) environment, stopping at the first error —
the same sequencing `execBlock` performs, without an environment swap. -/
def interpret_stmt (fuel : Nat) (st : Store) (I : Interp)
    (stmts : List Stmt) : EvalM Unit :=
  execBlock fuel st I stmts

/-- The `run` pipeline on an already-parsed program: resolve, then (if the
resolver flagged no error) interpret; returns the lines printed.  The `run`
subcommand body is `todo!()` in `src/main.rs`; the resolve-then-interpret
ordering and the exit-before-execution on resolver errors are modelled from
the spec (§4.2: a failed resolver causes the driver to exit 65 without
invoking the interpreter). -/
def runProgram (fuel : Nat) (stmts : List Stmt) : Option (List String) :=
  match resolve_block fuel initialRState stmts with
  | none => none
  | some R =>
    if R.had_error then some []
    else
      match interpret_stmt fuel initialStore
        { initialInterp with locals := R.locals } stmts with
      | none => none
      | some (_, st) => some st.output

/-! ## Parser

`Parser` (`src/parser/mod.rs`) holds the token vector, a cursor, and
`had_error`; `reported` additionally collects the diagnostics that
`Parser::error` prints (invoked only by `parse_stmt`/`parse_expr`).
Functions take fuel and return `none` when it runs out. -/

/-- Mirrors `parser::Error` (`src/parser/error.rs`). -/
inductive PError where
  | unknownExpression (token : Token)
  | expectExpression (token : Token)
  | unexpectedToken (token : Token) (message : String)
  | invalidAssignmentTarget (token : Token)
  | tooManyArguments (token : Token)

/-- The parser state (`Parser` struct plus the reported diagnostics). -/
structure PState where
  current : Nat
  tokens : List Token
  had_error : Bool
  reported : List PError

namespace Parser

/-- Result of a parsing function: `none` when the fuel ran out. -/
abbrev PM (α : Type) := Option (Except PError α × PState)

/-- Mirrors `Parser::peek` (the token vector is always `EOF`-terminated, so
the out-of-range default is never consulted on real inputs). -/
def peek (s : PState) : Token :=
  s.tokens.getD s.current (Token.eof 0)

/-- Mirrors `Parser::previous`. -/
def previous (s : PState) : Token :=
  s.tokens.getD (s.current - 1) (Token.eof 0)

/-- Mirrors `Parser::is_end`. -/
def is_end (s : PState) : Bool :=
  (peek s).token_type == .EOF

/-- Mirrors `Parser::advance`: step the cursor unless at `EOF`, then return
`previous`. -/
def advance (s : PState) : Token × PState :=
  let s' := if is_end s then s else { s with current := s.current + 1 }
  (previous s', s')

/-- Mirrors `Parser::check`. -/
def check (s : PState) (token_type : TokenType) : Bool :=
  if is_end s then false else (peek s).token_type == token_type

/-- Mirrors `Parser::matches`: try each expected kind in order, consuming
the token on the first hit. -/
def matchTok (s : PState) : List TokenType → Bool × PState
  | [] => (false, s)
  | t :: rest =>
    if check s t then (true, (advance s).2) else matchTok s rest

/-- Mirrors `Parser::consume`. -/
def consume (s : PState) (token_type : TokenType) (message : String) :
    Except PError Token × PState :=
  if check s token_type then
    let (t, s') := advance s
    (.ok t, s')
  else (.error (.unexpectedToken (peek s) message), s)

/-- The scan loop of `Parser::synchronize` (each iteration advances the
cursor, so `tokens.length + 1` fuel always suffices). -/
def syncLoop : Nat → PState → PState
  | 0, s => s
  | fuel + 1, s =>
    if is_end s then s
    else if (previous s).token_type == .SEMICOLON then s
    else
      match (peek s).token_type with
      | .CLASS | .FUN | .VAR | .FOR | .IF | .WHILE | .PRINT | .RETURN => s
      | _ => syncLoop fuel (advance s).2

/-- Mirrors `Parser::synchronize`: advance once, then skip until just past
a `;` or to the next statement keyword. -/
def synchronize (s : PState) : PState :=
  syncLoop (s.tokens.length + 1) (advance s).2

mutual

/-- Mirrors `Parser::declaration`: dispatch on `fun`/`var`, and on error
invoke `synchronize` before propagating the error. -/
def declaration (fuel : Nat) (s : PState) : PM Stmt :=
  match fuel with
  | 0 => none
  | fuel + 1 =>
    let run : PM Stmt :=
      match matchTok s [.FUN] with
      | (true, s₁) => function fuel s₁ ("function")
      | (false, _) =>
        match matchTok s [.VAR] with
        | (true, s₁) => var_declaration fuel s₁
        | (false, _) => statement fuel s
    match run with
    | none => none
    | some (.ok stmt, s₁) => some (.ok stmt, s₁)
    | some (.error er, s₁) => some (.error er, synchronize s₁)

/-- Mirrors `Parser::function`. -/
def function (fuel : Nat) (s : PState) (kind : String) : PM Stmt :=
  match fuel with
  | 0 => none
  | fuel + 1 =>
    match consume s .IDENTIFIER ("Expect function name.") with
    | (.error er, s₁) => some (.error er, s₁)
    | (.ok name, s₁) =>
      match consume s₁ .LEFT_PAREN ("Expect '(' after function name.") with
      | (.error er, s₂) => some (.error er, s₂)
      | (.ok _, s₂) =>
        let paramsRes : PM (List Token) :=
          if check s₂ .RIGHT_PAREN then some (.ok [], s₂)
          else paramsLoop fuel s₂ []
        match paramsRes with
        | none => none
        | some (.error er, s₃) => some (.error er, s₃)
        | some (.ok params, s₃) =>
          match consume s₃ .RIGHT_PAREN ("Expect ')' after parameters.") with
          | (.error er, s₄) => some (.error er, s₄)
          | (.ok _, s₄) =>
            match consume s₄ .LEFT_BRACE
                ("Expect '\x7b' before " ++ kind ++ " body.") with
            | (.error er, s₅) => some (.error er, s₅)
            | (.ok _, s₅) =>
              match block fuel s₅ with
              | none => none
              | some (.error er, s₆) => some (.error er, s₆)
              | some (.ok body, s₆) =>
                some (.ok (Stmt.function name params body), s₆)

/-- The parameter loop of `Parser::function` (cap checked before each
parameter). -/
def paramsLoop (fuel : Nat) (s : PState) (acc : List Token) :
    PM (List Token) :=
  match fuel with
  | 0 => none
  | fuel + 1 =>
    if acc.length ≥ 255 then
      some (.error (.tooManyArguments (peek s)), s)
    else
      match consume s .IDENTIFIER ("Expect parameter name.") with
      | (.error er, s₁) => some (.error er, s₁)
      | (.ok p, s₁) =>
        match matchTok s₁ [.COMMA] with
        | (true, s₂) => paramsLoop fuel s₂ (acc ++ [p])
        | (false, s₂) => some (.ok (acc ++ [p]), s₂)

/-- Mirrors `Parser::var_declaration`. -/
def var_declaration (fuel : Nat) (s : PState) : PM Stmt :=
  match fuel with
  | 0 => none
  | fuel + 1 =>
    match consume s .IDENTIFIER ("Expect variable name.") with
    | (.error er, s₁) => some (.error er, s₁)
    | (.ok name, s₁) =>
      let initRes : PM (Option Expr) :=
        match matchTok s₁ [.EQUAL] with
        | (true, s₂) =>
          match expression fuel s₂ with
          | none => none
          | some (.error er, s₃) => some (.error er, s₃)
          | some (.ok e, s₃) => some (.ok (some e), s₃)
        | (false, s₂) => some (.ok none, s₂)
      match initRes with
      | none => none
      | some (.error er, s₂) => some (.error er, s₂)
      | some (.ok initializer, s₂) =>
        match consume s₂ .SEMICOLON
            ("Expect ';' after variable declaration.") with
        | (.error er, s₃) => some (.error er, s₃)
        | (.ok _, s₃) => some (.ok (Stmt.varDecl name initializer), s₃)

/-- Mirrors `Parser::statement`. -/
def statement (fuel : Nat) (s : PState) : PM Stmt :=
  match fuel with
  | 0 => none
  | fuel + 1 =>
    match matchTok s [.FOR] with
    | (true, s₁) => for_statement fuel s₁
    | (false, _) =>
      match matchTok s [.IF] with
      | (true, s₁) => if_statement fuel s₁
      | (false, _) =>
        match matchTok s [.PRINT] with
        | (true, s₁) => print_statement fuel s₁
        | (false, _) =>
          match matchTok s [.RETURN] with
          | (true, s₁) => return_statement fuel s₁
          | (false, _) =>
            match matchTok s [.WHILE] with
            | (true, s₁) => while_statement fuel s₁
            | (false, _) =>
              match matchTok s [.LEFT_BRACE] with
              | (true, s₁) =>
                match block fuel s₁ with
                | none => none
                | some (.error er, s₂) => some (.error er, s₂)
                | some (.ok stmts, s₂) => some (.ok (Stmt.block stmts), s₂)
              | (false, _) => expression_statement fuel s

/-- Mirrors `Parser::return_statement`. -/
def return_statement (fuel : Nat) (s : PState) : PM Stmt :=
  match fuel with
  | 0 => none
  | fuel + 1 =>
    let keyword := previous s
    let valueRes : PM (Option Expr) :=
      if !check s .SEMICOLON then
        match expression fuel s with
        | none => none
        | some (.error er, s₁) => some (.error er, s₁)
        | some (.ok e, s₁) => some (.ok (some e), s₁)
      else some (.ok none, s)
    match valueRes with
    | none => none
    | some (.error er, s₁) => some (.error er, s₁)
    | some (.ok value, s₁) =>
      match consume s₁ .SEMICOLON ("Expect ';' after return value.") with
      | (.error er, s₂) => some (.error er, s₂)
      | (.ok _, s₂) => some (.ok (Stmt.ret keyword value), s₂)

/-- The initializer clause of `Parser::for_statement`: `;` means no
initializer, `var` parses a variable declaration, anything else an
expression statement. -/
def for_initializer (fuel : Nat) (s : PState) : PM (Option Stmt) :=
  match fuel with
  | 0 => none
  | fuel + 1 =>
    match matchTok s [.SEMICOLON] with
    | (true, s₁) => some (.ok none, s₁)
    | (false, _) =>
      match matchTok s [.VAR] with
      | (true, s₁) =>
        match var_declaration fuel s₁ with
        | none => none
        | some (.error er, s₂) => some (.error er, s₂)
        | some (.ok d, s₂) => some (.ok (some d), s₂)
      | (false, _) =>
        match expression_statement fuel s with
        | none => none
        | some (.error er, s₂) => some (.error er, s₂)
        | some (.ok d, s₂) => some (.ok (some d), s₂)

/-- The condition clause of `Parser::for_statement`: a missing condition
(the next token is `;`) becomes `Literal(Some(Boolean(true)))`. -/
def for_condition (fuel : Nat) (s : PState) : PM Expr :=
  match fuel with
  | 0 => none
  | fuel + 1 =>
    if !check s .SEMICOLON then expression fuel s
    else some (.ok (Expr.literal (some (.boolean true))), s)

/-- The increment clause of `Parser::for_statement`: absent when the next
token is `)`. -/
def for_increment (fuel : Nat) (s : PState) : PM (Option Expr) :=
  match fuel with
  | 0 => none
  | fuel + 1 =>
    if !check s .RIGHT_PAREN then
      match expression fuel s with
      | none => none
      | some (.error er, s₁) => some (.error er, s₁)
      | some (.ok e, s₁) => some (.ok (some e), s₁)
    else some (.ok none, s)

/-- Mirrors `Parser::for_statement` (`src/parser/mod.rs` lines 156-199):
parse the three clauses and the body, then desugar: wrap the body with the
increment in a `Block`, wrap that in a `While` (a missing condition becomes
`Literal(Boolean(true))`), and wrap initializer plus loop in a `Block`. -/
def for_statement (fuel : Nat) (s : PState) : PM Stmt :=
  match fuel with
  | 0 => none
  | fuel + 1 =>
    match consume s .LEFT_PAREN ("Expect '(' after 'for'.") with
    | (.error er, s₁) => some (.error er, s₁)
    | (.ok _, s₁) =>
      match for_initializer fuel s₁ with
      | none => none
      | some (.error er, s₂) => some (.error er, s₂)
      | some (.ok initializer, s₂) =>
        match for_condition fuel s₂ with
        | none => none
        | some (.error er, s₃) => some (.error er, s₃)
        | some (.ok condition, s₃) =>
          match consume s₃ .SEMICOLON ("Expect ';' after loop condition.") with
          | (.error er, s₄) => some (.error er, s₄)
          | (.ok _, s₄) =>
            match for_increment fuel s₄ with
            | none => none
            | some (.error er, s₅) => some (.error er, s₅)
            | some (.ok increment, s₅) =>
              match consume s₅ .RIGHT_PAREN
                  ("Expect ')' after for clauses.") with
              | (.error er, s₆) => some (.error er, s₆)
              | (.ok _, s₆) =>
                match statement fuel s₆ with
                | none => none
                | some (.error er, s₇) => some (.error er, s₇)
                | some (.ok body₀, s₇) =>
                  let body₁ :=
                    match increment with
                    | some inc => Stmt.block [body₀, Stmt.expression inc]
                    | none => body₀
                  let body₂ := Stmt.whileS condition body₁
                  let body₃ :=
                    match initializer with
                    | some init => Stmt.block [init, body₂]
                    | none => body₂
                  some (.ok body₃, s₇)

/-- Mirrors `Parser::while_statement` (note the Rust code runs `consume`
and `statement` before applying `?` to the condition, so a `consume` error
takes precedence). -/
def while_statement (fuel : Nat) (s : PState) : PM Stmt :=
  match fuel with
  | 0 => none
  | fuel + 1 =>
    match expression fuel s with
    | none => none
    | some (rcondition, s₁) =>
      match consume s₁ .RIGHT_PAREN ("Expect ')' after condition.") with
      | (.error er, s₂) => some (.error er, s₂)
      | (.ok _, s₂) =>
        match statement fuel s₂ with
        | none => none
        | some (rbody, s₃) =>
          match rcondition with
          | .error er => some (.error er, s₃)
          | .ok condition =>
            match rbody with
            | .error er => some (.error er, s₃)
            | .ok body => some (.ok (Stmt.whileS condition body), s₃)

/-- Mirrors `Parser::if_statement` (same deferred-`?` ordering as
`while_statement`; the `else` branch applies `?` immediately). -/
def if_statement (fuel : Nat) (s : PState) : PM Stmt :=
  match fuel with
  | 0 => none
  | fuel + 1 =>
    match expression fuel s with
    | none => none
    | some (rcondition, s₁) =>
      match consume s₁ .RIGHT_PAREN ("Expect ')' after condition.") with
      | (.error er, s₂) => some (.error er, s₂)
      | (.ok _, s₂) =>
        match statement fuel s₂ with
        | none => none
        | some (rthen, s₃) =>
          let elseRes : PM (Option Stmt) :=
            match matchTok s₃ [.ELSE] with
            | (true, s₄) =>
              match statement fuel s₄ with
              | none => none
              | some (.error er, s₅) => some (.error er, s₅)
              | some (.ok e, s₅) => some (.ok (some e), s₅)
            | (false, s₄) => some (.ok none, s₄)
          match elseRes with
          | none => none
          | some (.error er, s₄) => some (.error er, s₄)
          | some (.ok else_branch, s₄) =>
            match rcondition with
            | .error er => some (.error er, s₄)
            | .ok condition =>
              match rthen with
              | .error er => some (.error er, s₄)
              | .ok then_branch =>
                some (.ok (Stmt.ifS condition then_branch else_branch), s₄)

/-- The declaration loop of `Parser::block`. -/
def blockLoop (fuel : Nat) (s : PState) (acc : List Stmt) : PM (List Stmt) :=
  match fuel with
  | 0 => none
  | fuel + 1 =>
    if !check s .RIGHT_BRACE && !is_end s then
      match declaration fuel s with
      | none => none
      | some (.error er, s₁) => some (.error er, s₁)
      | some (.ok stmt, s₁) => blockLoop fuel s₁ (acc ++ [stmt])
    else
      match consume s .RIGHT_BRACE ("Expect '\x7d' after block.") with
      | (.error er, s₁) => some (.error er, s₁)
      | (.ok _, s₁) => some (.ok acc, s₁)

/-- Mirrors `Parser::block`. -/
def block (fuel : Nat) (s : PState) : PM (List Stmt) :=
  match fuel with
  | 0 => none
  | fuel + 1 => blockLoop fuel s []

/-- Mirrors `Parser::print_statement` (`consume` error takes precedence
over the expression's error). -/
def print_statement (fuel : Nat) (s : PState) : PM Stmt :=
  match fuel with
  | 0 => none
  | fuel + 1 =>
    match expression fuel s with
    | none => none
    | some (rvalue, s₁) =>
      match consume s₁ .SEMICOLON ("Expect ';' after value.") with
      | (.error er, s₂) => some (.error er, s₂)
      | (.ok _, s₂) =>
        match rvalue with
        | .error er => some (.error er, s₂)
        | .ok value => some (.ok (Stmt.print value), s₂)

/-- Mirrors `Parser::expression_statement` (same precedence remark as
`print_statement`). -/
def expression_statement (fuel : Nat) (s : PState) : PM Stmt :=
  match fuel with
  | 0 => none
  | fuel + 1 =>
    match expression fuel s with
    | none => none
    | some (rexpr, s₁) =>
      match consume s₁ .SEMICOLON ("Expect ';' after expression.") with
      | (.error er, s₂) => some (.error er, s₂)
      | (.ok _, s₂) =>
        match rexpr with
        | .error er => some (.error er, s₂)
        | .ok e => some (.ok (Stmt.expression e), s₂)

/-- Mirrors `Parser::expression`. -/
def expression (fuel : Nat) (s : PState) : PM Expr :=
  match fuel with
  | 0 => none
  | fuel + 1 => assignment fuel s

/-- Mirrors `Parser::assignment`: parse the LHS as `or`, and if `=` follows
rewrite a `Variable` LHS into `Assign`; a non-assignable LHS fails with
`InvalidAssignmentTarget` (the RHS error, if any, is discarded in that
case, matching the Rust evaluation order). -/
def assignment (fuel : Nat) (s : PState) : PM Expr :=
  match fuel with
  | 0 => none
  | fuel + 1 =>
    match or fuel s with
    | none => none
    | some (rexpr, s₁) =>
      match matchTok s₁ [.EQUAL] with
      | (true, s₂) =>
        let equals := previous s₂
        match assignment fuel s₂ with
        | none => none
        | some (rvalue, s₃) =>
          match rexpr with
          | .error er => some (.error er, s₃)
          | .ok (Expr.var name) =>
            match rvalue with
            | .error er => some (.error er, s₃)
            | .ok value => some (.ok (Expr.assign name value), s₃)
          | .ok _ => some (.error (.invalidAssignmentTarget equals), s₃)
      | (false, s₂) => some (rexpr, s₂)

/-- The operator loop of `Parser::or`: while `or` matches, parse the next
`and` operand and fold left; an error in either side propagates out of the
loop (the Rust `?` inside the loop body). -/
def orLoop (fuel : Nat) (rexpr : Except PError Expr) (s : PState) : PM Expr :=
  match fuel with
  | 0 => none
  | fuel + 1 =>
    match matchTok s [.OR] with
    | (false, s₁) => some (rexpr, s₁)
    | (true, s₁) =>
      let operator := previous s₁
      match and fuel s₁ with
      | none => none
      | some (rright, s₂) =>
        match rexpr with
        | .error er => some (.error er, s₂)
        | .ok left =>
          match rright with
          | .error er => some (.error er, s₂)
          | .ok right => orLoop fuel (.ok (Expr.logical left operator right)) s₂

/-- Mirrors `Parser::or`. -/
def or (fuel : Nat) (s : PState) : PM Expr :=
  match fuel with
  | 0 => none
  | fuel + 1 =>
    match and fuel s with
    | none => none
    | some (rexpr, s₁) => orLoop fuel rexpr s₁

/-- The operator loop of `Parser::and` (same shape as `orLoop`). -/
def andLoop (fuel : Nat) (rexpr : Except PError Expr) (s : PState) :
    PM Expr :=
  match fuel with
  | 0 => none
  | fuel + 1 =>
    match matchTok s [.AND] with
    | (false, s₁) => some (rexpr, s₁)
    | (true, s₁) =>
      let operator := previous s₁
      match equality fuel s₁ with
      | none => none
      | some (rright, s₂) =>
        match rexpr with
        | .error er => some (.error er, s₂)
        | .ok left =>
          match rright with
          | .error er => some (.error er, s₂)
          | .ok right => andLoop fuel (.ok (Expr.logical left operator right)) s₂

/-- Mirrors `Parser::and`. -/
def and (fuel : Nat) (s : PState) : PM Expr :=
  match fuel with
  | 0 => none
  | fuel + 1 =>
    match equality fuel s with
    | none => none
    | some (rexpr, s₁) => andLoop fuel rexpr s₁

/-- The operator loop of `Parser::equality` (`Binary` nodes). -/
def equalityLoop (fuel : Nat) (rexpr : Except PError Expr) (s : PState) :
    PM Expr :=
  match fuel with
  | 0 => none
  | fuel + 1 =>
    match matchTok s [.BANG_EQUAL, .EQUAL_EQUAL] with
    | (false, s₁) => some (rexpr, s₁)
    | (true, s₁) =>
      let operator := previous s₁
      match comparsion fuel s₁ with
      | none => none
      | some (rright, s₂) =>
        match rexpr with
        | .error er => some (.error er, s₂)
        | .ok left =>
          match rright with
          | .error er => some (.error er, s₂)
          | .ok right =>
            equalityLoop fuel (.ok (Expr.binary left operator right)) s₂

/-- Mirrors `Parser::equality`. -/
def equality (fuel : Nat) (s : PState) : PM Expr :=
  match fuel with
  | 0 => none
  | fuel + 1 =>
    match comparsion fuel s with
    | none => none
    | some (rexpr, s₁) => equalityLoop fuel rexpr s₁

/-- The operator loop of `Parser::comparsion`. -/
def comparsionLoop (fuel : Nat) (rexpr : Except PError Expr) (s : PState) :
    PM Expr :=
  match fuel with
  | 0 => none
  | fuel + 1 =>
    match matchTok s [.GREATER, .GREATER_EQUAL, .LESS, .LESS_EQUAL] with
    | (false, s₁) => some (rexpr, s₁)
    | (true, s₁) =>
      let operator := previous s₁
      match term fuel s₁ with
      | none => none
      | some (rright, s₂) =>
        match rexpr with
        | .error er => some (.error er, s₂)
        | .ok left =>
          match rright with
          | .error er => some (.error er, s₂)
          | .ok right =>
            comparsionLoop fuel (.ok (Expr.binary left operator right)) s₂

/-- Mirrors `Parser::comparsion` (the source's spelling). -/
def comparsion (fuel : Nat) (s : PState) : PM Expr :=
  match fuel with
  | 0 => none
  | fuel + 1 =>
    match term fuel s with
    | none => none
    | some (rexpr, s₁) => comparsionLoop fuel rexpr s₁

/-- The operator loop of `Parser::term`. -/
def termLoop (fuel : Nat) (rexpr : Except PError Expr) (s : PState) :
    PM Expr :=
  match fuel with
  | 0 => none
  | fuel + 1 =>
    match matchTok s [.MINUS, .PLUS] with
    | (false, s₁) => some (rexpr, s₁)
    | (true, s₁) =>
      let operator := previous s₁
      match factor fuel s₁ with
      | none => none
      | some (rright, s₂) =>
        match rexpr with
        | .error er => some (.error er, s₂)
        | .ok left =>
          match rright with
          | .error er => some (.error er, s₂)
          | .ok right => termLoop fuel (.ok (Expr.binary left operator right)) s₂

/-- Mirrors `Parser::term`. -/
def term (fuel : Nat) (s : PState) : PM Expr :=
  match fuel with
  | 0 => none
  | fuel + 1 =>
    match factor fuel s with
    | none => none
    | some (rexpr, s₁) => termLoop fuel rexpr s₁

/-- The operator loop of `Parser::factor`. -/
def factorLoop (fuel : Nat) (rexpr : Except PError Expr) (s : PState) :
    PM Expr :=
  match fuel with
  | 0 => none
  | fuel + 1 =>
    match matchTok s [.SLASH, .STAR] with
    | (false, s₁) => some (rexpr, s₁)
    | (true, s₁) =>
      let operator := previous s₁
      match unary fuel s₁ with
      | none => none
      | some (rright, s₂) =>
        match rexpr with
        | .error er => some (.error er, s₂)
        | .ok left =>
          match rright with
          | .error er => some (.error er, s₂)
          | .ok right =>
            factorLoop fuel (.ok (Expr.binary left operator right)) s₂

/-- Mirrors `Parser::factor`. -/
def factor (fuel : Nat) (s : PState) : PM Expr :=
  match fuel with
  | 0 => none
  | fuel + 1 =>
    match unary fuel s with
    | none => none
    | some (rexpr, s₁) => factorLoop fuel rexpr s₁

/-- Mirrors `Parser::unary` (the `while` whose body always returns acts as
an `if`). -/
def unary (fuel : Nat) (s : PState) : PM Expr :=
  match fuel with
  | 0 => none
  | fuel + 1 =>
    match matchTok s [.BANG, .MINUS] with
    | (true, s₁) =>
      let operator := previous s₁
      match unary fuel s₁ with
      | none => none
      | some (.error er, s₂) => some (.error er, s₂)
      | some (.ok right, s₂) => some (.ok (Expr.unary operator right), s₂)
    | (false, _) => call fuel s

/-- The call loop of `Parser::call`. -/
def callLoop (fuel : Nat) (rexpr : Except PError Expr) (s : PState) :
    PM Expr :=
  match fuel with
  | 0 => none
  | fuel + 1 =>
    match matchTok s [.LEFT_PAREN] with
    | (false, s₁) => some (rexpr, s₁)
    | (true, s₁) =>
      match rexpr with
      | .error er => some (.error er, s₁)
      | .ok callee =>
        match finish_call fuel callee s₁ with
        | none => none
        | some (rnext, s₂) => callLoop fuel rnext s₂

/-- Mirrors `Parser::call`. -/
def call (fuel : Nat) (s : PState) : PM Expr :=
  match fuel with
  | 0 => none
  | fuel + 1 =>
    match primary fuel s with
    | none => none
    | some (rexpr, s₁) => callLoop fuel rexpr s₁

/-- The argument loop of `Parser::finish_call` (cap checked before each
argument). -/
def argsLoop (fuel : Nat) (s : PState) (acc : List Expr) : PM (List Expr) :=
  match fuel with
  | 0 => none
  | fuel + 1 =>
    if acc.length ≥ 255 then
      some (.error (.tooManyArguments (peek s)), s)
    else
      match expression fuel s with
      | none => none
      | some (.error er, s₁) => some (.error er, s₁)
      | some (.ok e, s₁) =>
        match matchTok s₁ [.COMMA] with
        | (true, s₂) => argsLoop fuel s₂ (acc ++ [e])
        | (false, s₂) => some (.ok (acc ++ [e]), s₂)

/-- Mirrors `Parser::finish_call`. -/
def finish_call (fuel : Nat) (callee : Expr) (s : PState) : PM Expr :=
  match fuel with
  | 0 => none
  | fuel + 1 =>
    let argsRes : PM (List Expr) :=
      if check s .RIGHT_PAREN then some (.ok [], s)
      else argsLoop fuel s []
    match argsRes with
    | none => none
    | some (.error er, s₁) => some (.error er, s₁)
    | some (.ok arguments, s₁) =>
      match consume s₁ .RIGHT_PAREN ("Expect ')' after arguments.") with
      | (.error er, s₂) => some (.error er, s₂)
      | (.ok paren, s₂) => some (.ok (Expr.call callee paren arguments), s₂)

/-- Mirrors `Parser::primary` (the grouping arm runs `consume` before
applying `?` to the inner expression). -/
def primary (fuel : Nat) (s : PState) : PM Expr :=
  match fuel with
  | 0 => none
  | fuel + 1 =>
    match matchTok s [.FALSE] with
    | (true, s₁) => some (.ok (Expr.literal (some (.boolean false))), s₁)
    | (false, _) =>
      match matchTok s [.TRUE] with
      | (true, s₁) => some (.ok (Expr.literal (some (.boolean true))), s₁)
      | (false, _) =>
        match matchTok s [.NIL] with
        | (true, s₁) => some (.ok (Expr.literal (some .nil)), s₁)
        | (false, _) =>
          match matchTok s [.NUMBER, .STRING] with
          | (true, s₁) => some (.ok (Expr.literal (previous s₁).literal), s₁)
          | (false, _) =>
            match matchTok s [.IDENTIFIER] with
            | (true, s₁) => some (.ok (Expr.var (previous s₁)), s₁)
            | (false, _) =>
              match matchTok s [.LEFT_PAREN] with
              | (true, s₁) =>
                match expression fuel s₁ with
                | none => none
                | some (rexpr, s₂) =>
                  match consume s₂ .RIGHT_PAREN
                      ("Expect ')' after expression.") with
                  | (.error er, s₃) => some (.error er, s₃)
                  | (.ok _, s₃) =>
                    match rexpr with
                    | .error er => some (.error er, s₃)
                    | .ok e => some (.ok (Expr.grouping e), s₃)
              | (false, _) =>
                some (.error (.expectExpression (peek s)), s)

end

/-- The loop of `Parser::parse_stmt`: parse declarations until `EOF`; on
the first error set `had_error`, report the diagnostic and return the
error. -/
def parseStmtLoop (fuel : Nat) (s : PState) (acc : List Stmt) :
    PM (List Stmt) :=
  match fuel with
  | 0 => none
  | fuel + 1 =>
    if is_end s then some (.ok acc, s)
    else
      match declaration fuel s with
      | none => none
      | some (.error er, s₁) =>
        some (.error er,
          { s₁ with had_error := true, reported := s₁.reported ++ [er] })
      | some (.ok stmt, s₁) => parseStmtLoop fuel s₁ (acc ++ [stmt])

/-- Mirrors `Parser::parse_stmt` (`src/parser/mod.rs` lines 26-45). -/
def parse_stmt (fuel : Nat) (s : PState) : PM (List Stmt) :=
  parseStmtLoop fuel s []

/-- `Parser::new` on a token list. -/
def new (tokens : List Token) : PState := ⟨0, tokens, false, []⟩

end Parser

/-! ## Auxiliary definitions and concrete fixtures used by the theorems -/

/-- Modelled from the spec: the hand-written `while` loop
`{ init; while (cond) { body; incr; } }` with the same initializer,
condition, increment and body as a `for` statement (spec §4.1 and §8: the
desugared `for` must be observationally equivalent to it). -/
def hand_written_while (init : Stmt) (cond : Expr) (incr : Expr)
    (body : Stmt) : Stmt :=
  Stmt.block [init, Stmt.whileS cond (Stmt.block [body, Stmt.expression incr])]

/-- The operand pairings `+` accepts (two numbers or two strings). -/
def plusPairOk : Value → Value → Bool
  | .number _, .number _ => true
  | .str _, .str _ => true
  | _, _ => false

/-- Whether a parse result is an error (projection used to state facts
about `parse_stmt` results without spelling out the whole state). -/
def pmIsError {α : Type} : Except PError α → Bool
  | .ok _ => false
  | .error _ => true

/-- A `+` operator token (as the scanner would produce it on line 1). -/
def plusToken : Token := .mk .PLUS "+" none 1

/-- The message of the error `Value::calculate` raises on a bad `+`. -/
def plusMsg : String := "Operation must be done with numbers or strings."

/-- Identifier token `a` (line 1). -/
def tokA : Token := .mk .IDENTIFIER "a" none 1

/-- Identifier token `x` (line 1). -/
def tokX : Token := .mk .IDENTIFIER "x" none 1

/-- Identifier token `f` (line 1). -/
def tokF : Token := .mk .IDENTIFIER "f" none 1

/-- Identifier token `outer` (line 1). -/
def tokOuter : Token := .mk .IDENTIFIER "outer" none 1

/-- Identifier token `inner` (line 1). -/
def tokInner : Token := .mk .IDENTIFIER "inner" none 1

/-- A `return` keyword token. -/
def retToken : Token := .mk .RETURN "return" none 1

/-- A closing-paren token. -/
def rparenToken : Token := .mk .RIGHT_PAREN ")" none 1

/-- An `and` keyword token. -/
def andToken : Token := .mk .AND "and" none 1

/-- A `/` operator token. -/
def slashToken : Token := .mk .SLASH "/" none 1

/-- A frame binding `a ↦ 1` with no enclosing frame. -/
def frameA : Frame := ⟨[("a", some (.number 1))], none⟩

/-- A one-frame environment binding `a ↦ 1` with no enclosing frame. -/
def stA : Store := ⟨[frameA], []⟩

/-- The literal `false` (left operand of the short-circuit witness). -/
def falseLit : Expr := .literal (some (.boolean false))

/-- The expression `1 / 0`, which raises `ZeroDivision` when evaluated. -/
def divByZero : Expr :=
  .binary (.literal (some (.number 1))) slashToken (.literal (some (.number 0)))

/-- The diagnostic the parser emits at the first malformed declaration of
`badToks` (`var 1;`): `Expect variable name.` at the number token. -/
def badErr : PError :=
  .unexpectedToken (.mk .NUMBER "1" (some (.number 1)) 1) "Expect variable name."

/-- The program `fun f() { return 42; } print f();` as the parser would
build it. -/
def returnProg : List Stmt :=
  [ .function tokF []
      [ .ret retToken (some (.literal (some (.number 42)))) ],
    .print (.call (.var tokF) rparenToken []) ]

/-- The program
`fun outer() { var x = 5; fun inner() { print x; } inner(); } outer();`
as the parser would build it. -/
def closureProg : List Stmt :=
  [ .function tokOuter []
      [ .varDecl tokX (some (.literal (some (.number 5)))),
        .function tokInner [] [ .print (.var tokX) ],
        .expression (.call (.var tokInner) rparenToken []) ],
    .expression (.call (.var tokOuter) rparenToken []) ]

/-- The token stream of `for (var i = 0; i < 2; i = i + 1) print i;`. -/
def forToks : List Token :=
  [ .mk .FOR "for" none 1, .mk .LEFT_PAREN "(" none 1,
    .mk .VAR "var" none 1, .mk .IDENTIFIER "i" none 1, .mk .EQUAL "=" none 1,
    .mk .NUMBER "0" (some (.number 0)) 1, .mk .SEMICOLON ";" none 1,
    .mk .IDENTIFIER "i" none 1, .mk .LESS "<" none 1,
    .mk .NUMBER "2" (some (.number 2)) 1, .mk .SEMICOLON ";" none 1,
    .mk .IDENTIFIER "i" none 1, .mk .EQUAL "=" none 1,
    .mk .IDENTIFIER "i" none 1, .mk .PLUS "+" none 1,
    .mk .NUMBER "1" (some (.number 1)) 1, .mk .RIGHT_PAREN ")" none 1,
    .mk .PRINT "print" none 1, .mk .IDENTIFIER "i" none 1,
    .mk .SEMICOLON ";" none 1, Token.eof 1 ]

/-- The token stream of `var 1; var 2;` — two consecutive malformed
declarations (a number where the variable name belongs), the second on
line 2. -/
def badToks : List Token :=
  [ .mk .VAR "var" none 1, .mk .NUMBER "1" (some (.number 1)) 1,
    .mk .SEMICOLON ";" none 1,
    .mk .VAR "var" none 2, .mk .NUMBER "2" (some (.number 2)) 2,
    .mk .SEMICOLON ";" none 2,
    Token.eof 2 ]

/-- A resolver state with two scopes, the innermost containing `a`
(innermost-first, so the head is the innermost scope). -/
def twoScopesR : RState :=
  ⟨[[("a", true)], []], FunctionType.none, false, [], []⟩

/-- Identifier token `i` of `forToks` (line 1). -/
def tokI : Token := .mk .IDENTIFIER "i" none 1

/-- The initializer `var i = 0;` parsed from `forToks`. -/
def forInit : Stmt := .varDecl tokI (some (.literal (some (.number 0))))

/-- The condition `i < 2` parsed from `forToks`. -/
def forCond : Expr :=
  .binary (.var tokI) (.mk .LESS "<" none 1) (.literal (some (.number 2)))

/-- The increment `i = i + 1` parsed from `forToks`. -/
def forIncr : Expr :=
  .assign tokI (.binary (.var tokI) (.mk .PLUS "+" none 1)
    (.literal (some (.number 1))))

/-- The body `print i;` parsed from `forToks`. -/
def forBody : Stmt := .print (.var tokI)

/-! ## Helper lemmas -/

/-- `getD` of a list extended by one element, at the old length. -/
theorem getD_concat_self {α : Type} (l : List α) (x d : α) :
    (l ++ [x]).getD l.length d = x := by
  simp [List.getD_eq_getElem?_getD, List.getElem?_concat_length]

/-- `getD` of a list extended on the right, below the old length. -/
theorem getD_append_lt {α : Type} (l : List α) (x d : α) (a : Nat)
    (h : a < l.length) : (l ++ [x]).getD a d = l.getD a d := by
  simp [List.getD_eq_getElem?_getD, List.getElem?_append_left h]

/-- `getD` after `set` at a different index. -/
theorem getD_set_ne {α : Type} (l : List α) (b : Nat) (x d : α) (a : Nat)
    (h : b ≠ a) : (l.set b x).getD a d = l.getD a d := by
  simp [List.getD_eq_getElem?_getD, List.getElem?_set_ne h]

/-- The clone allocated by `ancestor` on `stA` has no enclosing frame, so
the saturating walk stays at it for every distance. -/
theorem walkA : ∀ d : Nat,
    Environment.ancestorWalk ⟨[frameA, frameA], []⟩ 1 d = 1
  | 0 => rfl
  | d + 1 => walkA d

/-- The scan loop of `resolve_local` agrees with `List.findIdx?` started at
the same index: the recorded value is `len - 1 - j` where `j` is the index
(counted from the innermost scope) of the first scope containing the
name. -/
theorem resolve_localAux_eq (len : Nat) (locals : List (String × Nat))
    (expr : Expr) (name : Token) :
    ∀ (scopes : List Scope) (i : Nat),
      Resolver.resolve_localAux len locals expr name i scopes
        = match scopes.findIdx? (fun sc => containsKey sc name.lexeme) i with
          | some j => Interp.resolve locals expr (len - 1 - j)
          | none => locals := by
  intro scopes
  induction scopes with
  | nil => intro i; simp [Resolver.resolve_localAux]
  | cons sc rest ih =>
    intro i
    rw [Resolver.resolve_localAux, List.findIdx?_cons]
    by_cases h : containsKey sc name.lexeme
    · simp [h]
    · simp only [h, if_neg, Bool.false_eq_true, if_false]
      exact ih (i + 1)

/-- `getD` after `set` at the same (in-range) index. -/
theorem getD_set_self_lt {α : Type} (l : List α) (b : Nat) (x d : α)
    (h : b < l.length) : (l.set b x).getD b d = x := by
  simp [List.getD_eq_getElem?_getD, List.getElem?_set_self h]

/-! ## Claim theorems -/

/-- C3, counterexample: with two scopes whose innermost contains `a`, the
claim says `resolve_local` records distance 0 for a use of `a`; the code
records 1 (it stores `scopes.len() - 1 - i`, the index of the containing
scope counted from the outermost end, because `i` from
`.rev().enumerate()` already counts from the innermost scope). -/
theorem C3_resolve_local_distance_counterexample :
    lookupNat (Resolver.resolve_local twoScopesR (.var tokA) tokA).locals "a"
      = some 1 ∧
    ¬ lookupNat (Resolver.resolve_local twoScopesR (.var tokA) tokA).locals "a"
      = some 0 :=
  ⟨rfl, by decide⟩

/-- C3, amended: `resolve_local` scans scopes from the innermost outward
and, at the first scope containing the name (hop index `i`), records the
value `scopes.length - 1 - i` — the index of that scope from the outermost
end, not the hop count — in the table, which `Interpreter::resolve` keys by
the expression's NAME TEXT (`expr.name()`), not by the use-site expression;
names found in no scope leave the table untouched, and such uses are read
against the globals at evaluation time. -/
theorem C3_resolve_local_amended :
    (∀ (R : RState) (expr : Expr) (tok : Token) (i : Nat),
        R.scopes.findIdx? (fun sc => containsKey sc tok.lexeme) = some i →
        (Resolver.resolve_local R expr tok).locals
          = Interp.resolve R.locals expr (R.scopes.length - 1 - i)) ∧
    (∀ (R : RState) (expr : Expr) (tok : Token),
        R.scopes.findIdx? (fun sc => containsKey sc tok.lexeme) = none →
        (Resolver.resolve_local R expr tok).locals = R.locals) ∧
    (∀ (st : Store) (fuel : Nat) (I : Interp) (name : Token),
        lookupNat I.locals name.lexeme = none →
        look_up_variable st fuel I name
          = Environment.get st fuel I.globals name) := by
  refine ⟨?_, ?_, ?_⟩
  · intro R expr tok i h
    unfold Resolver.resolve_local
    rw [resolve_localAux_eq, h]
  · intro R expr tok h
    unfold Resolver.resolve_local
    rw [resolve_localAux_eq, h]
  · intro st fuel I name h
    unfold look_up_variable
    rw [h]

/-- C3, witness: the amended theorem applied to the two-scope fixture. -/
theorem C3_resolve_local_amended_witness :
    twoScopesR.scopes.findIdx? (fun sc => containsKey sc tokA.lexeme)
      = some 0 ∧
    (Resolver.resolve_local twoScopesR (.var tokA) tokA).locals
      = Interp.resolve twoScopesR.locals (.var tokA)
          (twoScopesR.scopes.length - 1 - 0) :=
  ⟨rfl, C3_resolve_local_amended.1 twoScopesR (.var tokA) tokA 0 rfl⟩

/-- C4: the claim says `get_at`/`assign_at` fail with `AncestorNotFound`
when the enclosing chain is shorter than `distance`; on a one-frame
environment (`a ↦ 1`, no enclosing) both succeed at distance 1 — and
`get_at` returns the binding at EVERY distance — because `ancestor` wraps
its result in `Some` unconditionally (the saturating walk stays at the
last frame), leaving the `AncestorNotFound` branch dead. -/
theorem C4_ancestor_never_fails :
    Environment.get_at stA 5 0 1 tokA = some (.ok (.number 1)) ∧
    (Environment.assign_at stA 5 0 1 tokA (some (.number 9))).map Prod.fst
      = some (.ok ()) ∧
    ∀ d : Nat, Environment.get_at stA 5 0 d tokA = some (.ok (.number 1)) := by
  refine ⟨rfl, rfl, ?_⟩
  intro d
  show Environment.get ⟨[frameA, frameA], []⟩ 5
      (Environment.ancestorWalk ⟨[frameA, frameA], []⟩ 1 d) tokA
    = some (.ok (.number 1))
  rw [walkA]
  exact rfl

/-- C5, counterexample: assigning to `x` when no frame (globals included)
defines it is claimed to fail with `UndefinedVariable`; the code evaluates
the assignment to the value and leaves the store unchanged, because the
interpreter's `Assign` arm drops the `Result` of `Environment::assign`. -/
theorem C5_assign_undefined_counterexample :
    evalExpr 10 initialStore initialInterp
        (.assign tokX (.literal (some (.number 1))))
      = some (.ok (.number 1), initialStore) ∧
    ∀ (e : IError) (st' : Store),
      ¬ evalExpr 10 initialStore initialInterp
          (.assign tokX (.literal (some (.number 1))))
        = some (.error e, st') := by
  refine ⟨rfl, ?_⟩
  intro e st' h
  rw [show evalExpr 10 initialStore initialInterp
      (.assign tokX (.literal (some (.number 1))))
    = some (.ok (.number 1), initialStore) from rfl] at h
  simp at h

/-- C5, amended: evaluating `x = v` with `x` absent from the `locals`
table delegates to `globals.assign` and DISCARDS its `Result`: the
expression evaluates to `v` and execution continues even when no frame
defines `x` (the `UndefinedVariable` error is lost, and the store is
whatever the attempted assignment left); when the first frame of the chain
containing `x` exists, `assign` overwrites the binding there, and when the
chain ends without finding `x`, `assign` itself (whose result the caller
drops) returns `UndefinedVariable` with the store unchanged. -/
theorem C5_assign_amended :
    (∀ (fuel : Nat) (st : Store) (I : Interp) (name : Token) (value : Expr)
        (v : Value) (st₁ : Store) (r : Except EnvError Unit) (st₂ : Store),
        evalExpr fuel st I value = some (.ok v, st₁) →
        lookupNat I.locals name.lexeme = none →
        Environment.assign st₁ fuel I.globals name (some v) = some (r, st₂) →
        evalExpr (fuel + 1) st I (.assign name value)
          = some (.ok v, st₂)) ∧
    (∀ (st : Store) (fuel a : Nat) (name : Token) (v : Value) (w : Option Value),
        lookupVal (st.frameAt a).values name.lexeme = some w →
        Environment.assign st (fuel + 1) a name (some v)
          = some (.ok (), Environment.define st a name.lexeme (some v))) ∧
    (∀ (st : Store) (fuel a : Nat) (name : Token) (v : Value),
        lookupVal (st.frameAt a).values name.lexeme = none →
        (st.frameAt a).enclosing = none →
        Environment.assign st (fuel + 1) a name (some v)
          = some (.error (.undefinedVariable name), st)) := by
  refine ⟨?_, ?_, ?_⟩
  · intro fuel st I name value v st₁ r st₂ h1 h2 h3
    simp only [evalExpr, h1, h2, h3]
  · intro st fuel a name v w hw
    rw [Environment.assign, hw]
  · intro st fuel a name v hw he
    rw [Environment.assign, hw, he]

/-- C5, witness: the amended theorem applied to concrete inputs — an
assignment to the undefined global `x` (whose failed `assign` is dropped),
an in-frame overwrite, and the `UndefinedVariable` result of `assign` at
the end of a chain. -/
theorem C5_assign_amended_witness :
    evalExpr 11 initialStore initialInterp
        (.assign tokX (.literal (some (.number 2))))
      = some (.ok (.number 2), initialStore) ∧
    Environment.assign stA 5 0 tokA (some (.number 7))
      = some (.ok (), Environment.define stA 0 tokA.lexeme (some (.number 7))) ∧
    Environment.assign initialStore 5 0 tokX (some (.number 2))
      = some (.error (.undefinedVariable tokX), initialStore) :=
  ⟨C5_assign_amended.1 10 initialStore initialInterp tokX
      (.literal (some (.number 2))) (.number 2) initialStore
      (.error (.undefinedVariable tokX)) initialStore rfl rfl rfl,
   C5_assign_amended.2.1 stA 4 0 tokA (.number 7) (some (.number 1)) rfl,
   C5_assign_amended.2.2 initialStore 4 0 tokX (.number 2) rfl rfl⟩

/-- C8, counterexample: adding a number to a string is claimed to fail
with the `MustBeNumberOrString` error; `Value::calculate` raises
`InvalidType` (with the "numbers or strings" message) — the
`MustBeNumberOrString` variant is never constructed. -/
theorem C8_plus_counterexample :
    Value.calculate (.number 1) (some (.str "a")) plusToken
      = .error (.invalidType plusToken plusMsg) ∧
    ∀ (t : Token) (m : String),
      ¬ Value.calculate (.number 1) (some (.str "a")) plusToken
        = .error (.mustBeNumberOrString t m) := by
  refine ⟨rfl, ?_⟩
  intro t m h
  rw [show Value.calculate (.number 1) (some (.str "a")) plusToken
      = .error (.invalidType plusToken plusMsg) from rfl] at h
  simp at h

/-- C8, amended: for `+`, number+number is the numeric sum and
string+string the concatenation; every other pairing fails with the
`InvalidType` error carrying the message "Operation must be done with
numbers or strings." (not with the unused `MustBeNumberOrString`
variant). -/
theorem C8_plus_amended (tok : Token) (h : tok.token_type = .PLUS) :
    (∀ a b : Int, Value.calculate (.number a) (some (.number b)) tok
        = .ok (.number (a + b))) ∧
    (∀ x y : String, Value.calculate (.str x) (some (.str y)) tok
        = .ok (.str (x ++ y))) ∧
    (∀ v w : Value, plusPairOk v w = false →
        Value.calculate v (some w) tok = .error (.invalidType tok plusMsg)) := by
  refine ⟨?_, ?_, ?_⟩
  · intro a b
    unfold Value.calculate
    rw [h]
  · intro x y
    unfold Value.calculate
    rw [h]
  · intro v w hvw
    unfold Value.calculate
    rw [h]
    cases v <;> cases w <;> simp_all [plusPairOk, plusMsg]

/-- C8, witness: the amended theorem applied to `2 + 3`, `"a" + "b"` and
`nil + true`. -/
theorem C8_plus_amended_witness :
    plusToken.token_type = .PLUS ∧
    Value.calculate (.number 2) (some (.number 3)) plusToken
      = .ok (.number 5) ∧
    Value.calculate (.str "a") (some (.str "b")) plusToken
      = .ok (.str "ab") ∧
    Value.calculate .nil (some (.boolean true)) plusToken
      = .error (.invalidType plusToken plusMsg) :=
  ⟨rfl, (C8_plus_amended plusToken rfl).1 2 3,
   (C8_plus_amended plusToken rfl).2.1 "a" "b",
   (C8_plus_amended plusToken rfl).2.2 .nil (.boolean true) rfl⟩

/-- C9: `or` returns the left value (its store, untouched by the right
operand) when the left is truthy and otherwise evaluates and returns the
right operand; `and` does the same with the roles of truthy and falsey
swapped. -/
theorem C9_logical_short_circuit (fuel : Nat) (st st₁ : Store) (I : Interp)
    (l r : Expr) (op : Token) (v : Value)
    (hl : evalExpr fuel st I l = some (.ok v, st₁)) :
    (op.token_type = .OR →
      (v.is_truthy = true →
        evalExpr (fuel + 1) st I (.logical l op r) = some (.ok v, st₁)) ∧
      (v.is_truthy = false →
        evalExpr (fuel + 1) st I (.logical l op r) = evalExpr fuel st₁ I r)) ∧
    (op.token_type = .AND →
      (v.is_truthy = false →
        evalExpr (fuel + 1) st I (.logical l op r) = some (.ok v, st₁)) ∧
      (v.is_truthy = true →
        evalExpr (fuel + 1) st I (.logical l op r) = evalExpr fuel st₁ I r)) := by
  constructor
  · intro hop
    constructor <;> intro ht <;> rw [evalExpr, hl] <;> simp [hop, ht]
  · intro hop
    constructor <;> intro ht <;> rw [evalExpr, hl] <;> simp [hop, ht]

/-- C9, witness: `false and (1 / 0)` evaluates to `false` without raising
the division error (which evaluating the right operand alone does
raise). -/
theorem C9_logical_short_circuit_witness :
    evalExpr 5 initialStore initialInterp falseLit
      = some (.ok (.boolean false), initialStore) ∧
    evalExpr 6 initialStore initialInterp (.logical falseLit andToken divByZero)
      = some (.ok (.boolean false), initialStore) ∧
    evalExpr 6 initialStore initialInterp divByZero
      = some (.error (.valueError
          (.zeroDivision slashToken "Cannot divide by zero.")), initialStore) :=
  ⟨rfl,
   ((C9_logical_short_circuit 5 initialStore initialStore initialInterp
       falseLit divByZero andToken (.boolean false) rfl).2 rfl).1 rfl,
   rfl⟩

/-- C10: on an environment whose current frame defines `name`,
`assign_at(0, name, value)` succeeds but performs the write in the fresh
clone `ancestor` allocated: the original frame — and any `get` through the
original address — is unchanged, while the clone (at the old store length)
holds the new value. -/
theorem C10_assign_at_zero_clone (st : Store) (a : Nat) (name : Token)
    (w : Option Value) (v : Value) (fu : Nat)
    (ha : a < st.frames.length)
    (hw : lookupVal (st.frameAt a).values name.lexeme = some w) :
    ∃ st' : Store,
      Environment.assign_at st (fu + 1) a 0 name (some v)
        = some (.ok (), st') ∧
      st'.frameAt a = st.frameAt a ∧
      st'.frameAt st.frames.length
        = ⟨insertVal (st.frameAt a).values name.lexeme (some v),
           (st.frameAt a).enclosing⟩ ∧
      ∀ g : Nat, Environment.get st' g a name = Environment.get st g a name := by
  have hb : (⟨st.frames ++ [st.frameAt a], st.output⟩ : Store).frameAt
      st.frames.length = st.frameAt a := by
    simp [Store.frameAt, getD_concat_self]
  have hlen : st.frames.length ≠ a := (Nat.ne_of_lt ha).symm
  refine ⟨⟨(st.frames ++ [st.frameAt a]).set st.frames.length
      ⟨insertVal (st.frameAt a).values name.lexeme (some v),
       (st.frameAt a).enclosing⟩, st.output⟩, ?_, ?_, ?_, ?_⟩
  · show Environment.assign ⟨st.frames ++ [st.frameAt a], st.output⟩
        (fu + 1) st.frames.length name (some v) = _
    rw [Environment.assign, hb, hw]
    simp [Environment.define, Store.setFrame, hb]
  · show Store.frameAt _ a = _
    simp only [Store.frameAt]
    rw [getD_set_ne _ _ _ _ _ hlen, getD_append_lt _ _ _ _ ha]
  · show Store.frameAt _ st.frames.length = _
    simp only [Store.frameAt]
    rw [getD_set_self_lt]
    simp
  · have hfa : (⟨(st.frames ++ [st.frameAt a]).set st.frames.length
        ⟨insertVal (st.frameAt a).values name.lexeme (some v),
         (st.frameAt a).enclosing⟩, st.output⟩ : Store).frameAt a
        = st.frameAt a := by
      simp only [Store.frameAt]
      rw [getD_set_ne _ _ _ _ _ hlen, getD_append_lt _ _ _ _ ha]
    intro g
    cases g with
    | zero => rfl
    | succ g =>
      rw [Environment.get, Environment.get, hfa, hw]
      cases w <;> rfl

/-- C1: running `fun f() { return 42; } print f();` prints `nil`, not `42`,
although the body does raise the `Return(42)` signal (second conjunct):
`Callable::call` discards the result of `execute_block` — the signal never
propagates past the call, but its value is lost and the call always
evaluates to `Nil`. -/
theorem C1_call_discards_return_value :
    runProgram 100 returnProg = some ["nil"] ∧
    execStmt 50 initialStore initialInterp
        (.ret retToken (some (.literal (some (.number 42)))))
      = some (.error (.ret (.number 42)), initialStore) :=
  ⟨rfl, rfl⟩

/-- C2: running
`fun outer() { var x = 5; fun inner() { print x; } inner(); } outer();`
prints nothing instead of `5`: `Callable::call` parents the call frame on
the interpreter's GLOBALS (it never reads the `closure` field), so `x` is
undefined inside `inner` — and even that `UndefinedVariable` error is
swallowed by the call. -/
theorem C2_call_env_parent_is_globals :
    runProgram 100 closureProg = some [] :=
  rfl

/-- C6, counterexample: on `var 1; var 2;` — two malformed declarations —
the claim says the parser synchronizes, parses on and reports the second
error too; `parse_stmt` reports exactly one diagnostic and returns the
first error (no statement list), because its loop returns `Err` on the
first failed declaration. -/
theorem C6_parse_aborts_counterexample :
    (Parser.parse_stmt 100 (Parser.new badToks)).map
        (fun p => (pmIsError p.1, p.2.reported.length, p.2.had_error))
      = some (true, 1, true) :=
  rfl

/-- C6, amended: when a declaration fails, `declaration` synchronizes and
`parse_stmt` reports that one diagnostic, sets `had_error` and returns the
error immediately — the remaining declarations are not parsed and later
errors are not reported; the overall parse is failed. -/
theorem C6_parse_aborts_amended (fuel : Nat) (s : PState) (e : PError)
    (s₁ : PState) (h1 : Parser.is_end s = false)
    (h2 : Parser.declaration fuel s = some (.error e, s₁)) :
    Parser.parse_stmt (fuel + 1) s
      = some (.error e,
          { s₁ with had_error := true, reported := s₁.reported ++ [e] }) := by
  unfold Parser.parse_stmt
  rw [Parser.parseStmtLoop]
  simp [h1, h2]

/-- C6, witness: the amended theorem applied to `var 1; var 2;`. -/
theorem C6_parse_aborts_amended_witness :
    Parser.is_end (Parser.new badToks) = false ∧
    Parser.declaration 99 (Parser.new badToks)
      = some (.error badErr, ⟨3, badToks, false, []⟩) ∧
    Parser.parse_stmt 100 (Parser.new badToks)
      = some (.error badErr, ⟨3, badToks, true, [badErr]⟩) :=
  ⟨rfl, rfl,
   C6_parse_aborts_amended 99 (Parser.new badToks) badErr
     ⟨3, badToks, false, []⟩ rfl rfl⟩

/-- C7: a `for` whose clauses parse as `init`, `cond`, `incr` and `body`
produces, at parse time, exactly
`Block [init, While cond (Block [body, Expression incr])]`; a missing
condition parses as `Literal(Boolean(true))`; and executing the desugared
form coincides with executing the hand-written while loop
`{ init; while (cond) { body; incr; } }` — the two are the same
statement. -/
theorem C7_for_desugar (fuel : Nat) (s s₁ s₂ s₃ s₄ s₅ s₆ s₇ : PState)
    (t₀ t₁ t₂ : Token) (init : Stmt) (cond incr : Expr) (body : Stmt)
    (hp : Parser.consume s .LEFT_PAREN ("Expect '(' after 'for'.")
      = (.ok t₀, s₁))
    (hi : Parser.for_initializer fuel s₁ = some (.ok (some init), s₂))
    (hc : Parser.for_condition fuel s₂ = some (.ok cond, s₃))
    (hs : Parser.consume s₃ .SEMICOLON ("Expect ';' after loop condition.")
      = (.ok t₁, s₄))
    (hx : Parser.for_increment fuel s₄ = some (.ok (some incr), s₅))
    (hr : Parser.consume s₅ .RIGHT_PAREN ("Expect ')' after for clauses.")
      = (.ok t₂, s₆))
    (hb : Parser.statement fuel s₆ = some (.ok body, s₇)) :
    Parser.for_statement (fuel + 1) s
      = some (.ok (Stmt.block [init,
          Stmt.whileS cond (Stmt.block [body, Stmt.expression incr])]), s₇) ∧
    (∀ (f : Nat) (s' : PState), Parser.check s' .SEMICOLON = true →
      Parser.for_condition (f + 1) s'
        = some (.ok (Expr.literal (some (.boolean true))), s')) ∧
    (∀ (fe : Nat) (ste : Store) (Ie : Interp),
      execStmt fe ste Ie (Stmt.block [init,
          Stmt.whileS cond (Stmt.block [body, Stmt.expression incr])])
        = execStmt fe ste Ie (hand_written_while init cond incr body)) := by
  refine ⟨?_, ?_, ?_⟩
  · simp only [Parser.for_statement, hp, hi, hc, hs, hx, hr, hb]
  · intro f s' h
    rw [Parser.for_condition]
    simp [h]
  · intro fe ste Ie
    rfl

/-- C7, witness: the theorem applied to the tokens of
`for (var i = 0; i < 2; i = i + 1) print i;` (and, for the
missing-condition conjunct, the parser state sitting on the `;` of the
condition slot). -/
theorem C7_for_desugar_witness :
    Parser.for_statement 100 ⟨1, forToks, false, []⟩
      = some (.ok (Stmt.block [forInit,
          Stmt.whileS forCond (Stmt.block [forBody, Stmt.expression forIncr])]),
          ⟨20, forToks, false, []⟩) ∧
    Parser.for_condition 100 ⟨10, forToks, false, []⟩
      = some (.ok (Expr.literal (some (.boolean true))),
          ⟨10, forToks, false, []⟩) ∧
    execStmt 3 initialStore initialInterp (Stmt.block [forInit,
        Stmt.whileS forCond (Stmt.block [forBody, Stmt.expression forIncr])])
      = execStmt 3 initialStore initialInterp
          (hand_written_while forInit forCond forIncr forBody) :=
  ⟨(C7_for_desugar 99 ⟨1, forToks, false, []⟩ ⟨2, forToks, false, []⟩
      ⟨7, forToks, false, []⟩ ⟨10, forToks, false, []⟩ ⟨11, forToks, false, []⟩
      ⟨16, forToks, false, []⟩ ⟨17, forToks, false, []⟩ ⟨20, forToks, false, []⟩
      (.mk .LEFT_PAREN "(" none 1) (.mk .SEMICOLON ";" none 1)
      (.mk .RIGHT_PAREN ")" none 1) forInit forCond forIncr forBody
      rfl rfl rfl rfl rfl rfl rfl).1,
   (C7_for_desugar 99 ⟨1, forToks, false, []⟩ ⟨2, forToks, false, []⟩
      ⟨7, forToks, false, []⟩ ⟨10, forToks, false, []⟩ ⟨11, forToks, false, []⟩
      ⟨16, forToks, false, []⟩ ⟨17, forToks, false, []⟩ ⟨20, forToks, false, []⟩
      (.mk .LEFT_PAREN "(" none 1) (.mk .SEMICOLON ";" none 1)
      (.mk .RIGHT_PAREN ")" none 1) forInit forCond forIncr forBody
      rfl rfl rfl rfl rfl rfl rfl).2.1 99 ⟨10, forToks, false, []⟩ rfl,
   (C7_for_desugar 99 ⟨1, forToks, false, []⟩ ⟨2, forToks, false, []⟩
      ⟨7, forToks, false, []⟩ ⟨10, forToks, false, []⟩ ⟨11, forToks, false, []⟩
      ⟨16, forToks, false, []⟩ ⟨17, forToks, false, []⟩ ⟨20, forToks, false, []⟩
      (.mk .LEFT_PAREN "(" none 1) (.mk .SEMICOLON ";" none 1)
      (.mk .RIGHT_PAREN ")" none 1) forInit forCond forIncr forBody
      rfl rfl rfl rfl rfl rfl rfl).2.2 3 initialStore initialInterp⟩

/-- C10, witness: the clone effect on the concrete one-frame store. -/
theorem C10_assign_at_zero_clone_witness :
    0 < stA.frames.length ∧
    ∃ st' : Store,
      Environment.assign_at stA 5 0 0 tokA (some (.number 9))
        = some (.ok (), st') ∧
      st'.frameAt 0 = stA.frameAt 0 ∧
      st'.frameAt stA.frames.length
        = ⟨insertVal (stA.frameAt 0).values tokA.lexeme (some (.number 9)),
           (stA.frameAt 0).enclosing⟩ ∧
      ∀ g : Nat, Environment.get st' g 0 tokA = Environment.get stA g 0 tokA :=
  ⟨by decide,
   C10_assign_at_zero_clone stA 0 tokA (some (.number 1)) (.number 9) 4
     (by decide) rfl⟩

end Lox
